import Mathlib

/-!
Shallow embedding of the fortiss MIQP planner (`modules/planning/planner/miqp/`)
and its NLOpt trajectory smoother, together with theorems settling the frozen
claims about trajectory decoding, target-velocity selection, obstacle
registration, the planning-cycle error policy, the kinematic step model with
its Jacobians, sensitivity propagation, and smoother initialization.

C++ `double` arithmetic is modelled over `ℝ`.  External collaborators (the
CPLEX-based combinatorial solver, geometry primitives of `common::math`, the
collision checkers, `fortiss::` helpers and the NLOpt optimizer) are modelled
as oracle inputs, since their sources live outside this repository; everything
else is translated statement by statement from the C++ sources.
-/

noncomputable section

open scoped Classical

/-- `atan2(y, x)` of `<cmath>`, modelled as the argument of the complex number
`x + y·i` (same quadrant conventions, range `(-π, π]`). -/
def atan2 (y x : ℝ) : ℝ := Complex.arg ⟨x, y⟩

/-- One fixed-stride sample of a raw solver trajectory buffer, the record
`{time, x, y, vx, vy, ax, ay}` read at offsets `TRAJECTORY_TIME_IDX`, …,
`TRAJECTORY_AY_IDX` in `RawCTrajectoryToApolloTrajectory`. -/
structure RawSample where
  time : ℝ
  x : ℝ
  y : ℝ
  vx : ℝ
  vy : ℝ
  ax : ℝ
  ay : ℝ

instance : Inhabited RawSample := ⟨⟨0, 0, 0, 0, 0, 0, 0⟩⟩

/-- An `apollo::common::TrajectoryPoint` restricted to the fields the planner
writes: path point `(x, y, s, theta, kappa)`, speed `v`, acceleration `a` and
`relative_time`, plus the time-derivative fields `da` (jerk) and `dkappa`
that the external backfill pass `FillTimeDerivativesInApolloTrajectory`
(outside this repository) fills in afterwards. -/
structure TrajectoryPoint where
  x : ℝ
  y : ℝ
  s : ℝ
  theta : ℝ
  kappa : ℝ
  v : ℝ
  a : ℝ
  relative_time : ℝ
  da : ℝ := 0
  dkappa : ℝ := 0

/-- The fields of `MiqpPlannerConfig` that `MiqpPlanner::PlanOnReferenceLine`
and `RawCTrajectoryToApolloTrajectory` read. -/
structure MiqpConfig where
  pts_offset_x : ℝ
  pts_offset_y : ℝ
  distance_start_slowdown : ℝ
  distance_stop_before : ℝ
  delta_s_desired : ℝ
  consider_obstacles : Bool
  use_environment_polygon : Bool
  use_smoothing : Bool
  minimum_percentage_valid_miqp_points : ℝ
  nr_steps : ℕ
  extension_length_static : ℝ
  extension_width_static : ℝ
  merge_static_obstacles : Bool
  static_obstacle_distance_criteria : ℝ
  extension_length_dynamic : ℝ

/-- `minimum_valid_speed_vx_vy_`, set to `0.5` in `MiqpPlanner::Init`. -/
def minimum_valid_speed_vx_vy : ℝ := 0.5

/-- `MiqpPlanner::IsVxVyValid`: at least one of `|vx|`, `|vy|` exceeds the
minimum valid individual speed. -/
def IsVxVyValid (vx vy : ℝ) : Prop :=
  |vx| > minimum_valid_speed_vx_vy ∨ |vy| > minimum_valid_speed_vx_vy

/-- Loop body of `RawCTrajectoryToApolloTrajectory`, carrying the running arc
length `s` and the previous retained position `(lastx, lasty)`.  The `break`
at the first invalid low-speed sample becomes returning `[]`; the exponent of
the curvature denominator is `3 / 2 : ℕ`, mirroring the C++ integer division
`3 / 2` inside `pow((vx * vx + vy * vy), 3 / 2)`. -/
def rawToApolloAux (cfg : MiqpConfig) (low_speed_check : Bool) :
    List RawSample → ℝ → ℝ → ℝ → List TrajectoryPoint
  | [], _, _, _ => []
  | smp :: rest, s, lastx, lasty =>
    if low_speed_check ∧ ¬ IsVxVyValid smp.vx smp.vy then []
    else
      let x := smp.x + cfg.pts_offset_x
      let y := smp.y + cfg.pts_offset_y
      let theta := atan2 smp.vy smp.vx
      let v := smp.vx / Real.cos theta
      let a := Real.cos theta * smp.ax + Real.sin (Real.pi / 4 - theta) * smp.ay
      let s1 := s + Real.sqrt ((x - lastx) ^ 2 + (y - lasty) ^ 2)
      let kappa : ℝ :=
        if smp.vx * smp.vx + smp.vy * smp.vy < 1e-3 then 0
        else (smp.vx * smp.ay - smp.ax * smp.vy) /
          (smp.vx * smp.vx + smp.vy * smp.vy) ^ (3 / 2 : ℕ)
      { x := x, y := y, s := s1, theta := theta, kappa := kappa, v := v, a := a,
        relative_time := smp.time } :: rawToApolloAux cfg low_speed_check rest s1 x y

/-- `MiqpPlanner::RawCTrajectoryToApolloTrajectory`: decode a raw buffer into
a discretized trajectory.  `lastx`/`lasty` start from sample 0's
origin-corrected position; the external time-derivative backfill pass only
fills the `da`/`dkappa` fields afterwards and is not modelled. -/
def RawCTrajectoryToApolloTrajectory (cfg : MiqpConfig) (traj : List RawSample)
    (low_speed_check : Bool) : List TrajectoryPoint :=
  let lastx := traj.headI.x + cfg.pts_offset_x
  let lasty := traj.headI.y + cfg.pts_offset_y
  rawToApolloAux cfg low_speed_check traj 0 lastx lasty

/-- Modelled from the spec: the curvature formula as the specification words
it, with the denominator raised to the rational power `3/2` (the `1.5` power
of the squared planar speed).  Used only to compare against the decoder's
actual curvature. -/
def specCurvature (vx vy ax ay : ℝ) : ℝ :=
  if vx * vx + vy * vy < 1e-3 then 0
  else (vx * ay - ax * vy) / (vx * vx + vy * vy) ^ ((3 : ℝ) / 2)

/-- The `PlannerState` enum of `miqp_planner.h` (the classification itself,
`fortiss::DeterminePlannerState`, lives outside this repository). -/
inductive PlannerState where
  | DRIVING_TRAJECTORY
  | START_TRAJECTORY
  | STOP_TRAJECTORY
  | STANDSTILL_TRAJECTORY
deriving DecidableEq

/-- `apollo::common::Status` restricted to what the planner produces: `OK`
or `PLANNING_ERROR` with a message. -/
inductive Status where
  | ok
  | error (msg : String)
deriving DecidableEq

/-- The triple `(track_ref_pos, vDes, deltaSDes)` computed in
`PlanOnReferenceLine` and sent to the solver agent. -/
structure TargetSelection where
  track_ref_pos : Bool
  vDes : ℝ
  deltaSDes : ℝ
deriving DecidableEq

/-- Target velocity and target offset selection of `PlanOnReferenceLine`
(`miqp_planner.cc`, the `track_ref_pos`/`vDes`/`deltaSDes` cascade). -/
def targetVelocity (cfg : MiqpConfig) (planner_status : PlannerState)
    (stop_dist default_cruise_speed : ℝ) : TargetSelection :=
  if stop_dist - cfg.distance_stop_before < cfg.distance_start_slowdown ∧
      planner_status ≠ PlannerState.START_TRAJECTORY then
    { track_ref_pos := false, vDes := 0,
      deltaSDes := max 0 (stop_dist - cfg.distance_stop_before) }
  else if stop_dist - cfg.distance_stop_before < cfg.distance_start_slowdown ∧
      planner_status = PlannerState.START_TRAJECTORY then
    { track_ref_pos := false, vDes := default_cruise_speed,
      deltaSDes := max 0 (stop_dist - cfg.distance_stop_before) }
  else
    { track_ref_pos := true, vDes := default_cruise_speed,
      deltaSDes := cfg.delta_s_desired }

/-- The two flags of an `apollo::planning::Obstacle` that the obstacle
processing branches on; all geometry is reached through oracles. -/
structure Obstacle where
  id : ℕ
  isVirtual : Bool
  hasTrajectory : Bool

/-- Opaque stand-in for a `common::math::Polygon2d` value; the geometry
library is an external collaborator, so polygons are never inspected, only
passed between its operations. -/
structure Polygon where
  tag : ℕ
deriving DecidableEq

/-- Oracles for the external geometry collaborators used by the obstacle
processing: the extended perception bounding box turned into a polygon,
polygon distance, and the convex hull of the union of two vertex sets. -/
structure GeomOracle where
  boundingPolyStatic : Obstacle → Polygon
  distanceTo : Polygon → Polygon → ℝ
  convexHullUnion : Polygon → Polygon → Polygon

/-- The merge scan of `ProcessStaticObstacles`: walk the accepted polygons in
insertion order; at the first one closer than the criteria, replace it by the
convex hull of the union and stop (`merged = true`); `none` means no merge
partner was found. -/
def mergeScan (geo : GeomOracle) (criteria : ℝ) (obst_poly : Polygon) :
    List Polygon → Option (List Polygon)
  | [] => none
  | q :: rest =>
    if geo.distanceTo obst_poly q < criteria then
      some (geo.convexHullUnion obst_poly q :: rest)
    else (mergeScan geo criteria obst_poly rest).map (fun l => q :: l)

/-- The `static_polygons` accumulation loop of `ProcessStaticObstacles`:
non-virtual obstacles without a predicted trajectory are boxed, extended and
either merged into the first close-enough accepted polygon or appended. -/
def staticPolygons (cfg : MiqpConfig) (geo : GeomOracle)
    (obstacles : List Obstacle) : List Polygon :=
  obstacles.foldl (fun acc obstacle =>
    if !obstacle.isVirtual && !obstacle.hasTrajectory then
      let obst_poly := geo.boundingPolyStatic obstacle
      if cfg.merge_static_obstacles then
        match mergeScan geo cfg.static_obstacle_distance_criteria obst_poly acc with
        | some merged_list => merged_list
        | none => acc ++ [obst_poly]
      else acc ++ [obst_poly]
    else acc) []

/-- Result of an obstacle-processing call: the returned `bool` plus the ghost
trace of indices handed back by `AddObstacleCMiqpPlanner` (one per call, in
call order); the index `-1` is the solver's failure sentinel. -/
structure ObstacleProcResult where
  result : Bool
  registrations : List ℤ

/-- `MiqpPlanner::ProcessStaticObstacles`: register each accepted static
polygon with the solver.  The returned index is only compared against `-1`
for logging; the function ends in `return true` unconditionally.
`addObstacle n` is the index the external solver returns for the `n`-th call. -/
def ProcessStaticObstacles (cfg : MiqpConfig) (geo : GeomOracle)
    (addObstacle : ℕ → ℤ) (obstacles : List Obstacle) : ObstacleProcResult :=
  let polys := staticPolygons cfg geo obstacles
  { result := true,
    registrations := (List.range polys.length).map addObstacle }

/-- `MiqpPlanner::ProcessDynamicObstacles`: register each non-virtual
obstacle carrying a predicted trajectory (its per-step boxes are pure
geometry, elided).  The returned index is again only checked against `-1`
for logging, and the function ends in `return true` unconditionally. -/
def ProcessDynamicObstacles (_geo : GeomOracle) (addObstacle : ℕ → ℤ)
    (obstacles : List Obstacle) : ObstacleProcResult :=
  let dyn := obstacles.filter (fun o => !o.isVirtual && o.hasTrajectory)
  { result := true,
    registrations := (List.range dyn.length).map addObstacle }

/-- Inputs of one `PlanOnReferenceLine` cycle that come from outside the
translated code: the classification result and stop distance
(`fortiss::DeterminePlannerState`), the gflag cruise speed, the solver's raw
buffers and solve outcome, the geometry and registration oracles, the two
collision checkers and the smoothing pass. -/
structure PlanEnv where
  planner_status : PlannerState
  stop_dist : ℝ
  default_cruise_speed : ℝ
  standstill_traj : List TrajectoryPoint
  obstacles : List Obstacle
  geo : GeomOracle
  addStatic : ℕ → ℤ
  addDynamic : ℕ → ℤ
  plan_success : Bool
  lastRefTraj : List RawSample
  optTraj : List RawSample
  inCollision : List TrajectoryPoint → Bool
  environmentCollision : List TrajectoryPoint → Bool
  smooth : List TrajectoryPoint → Option (List TrajectoryPoint)

/-- Observable outcome of one `PlanOnReferenceLine` cycle: the returned
status, the trajectory passed to `ReferenceLineInfo::SetTrajectory` (if any),
the target selection sent to the solver, and whether the two post-hoc
collision checks fired (they are only logged via `AERROR`). -/
structure PlanOutcome where
  status : Status
  published : Option (List TrajectoryPoint)
  target : Option TargetSelection
  obstacleCollisionLogged : Bool
  environmentCollisionLogged : Bool

/-- Tail of `PlanOnReferenceLine` after the decoded trajectory is available:
minimum-length rejection, the two logged-only collision checks, then either
the smoothing pass or direct publication. -/
def planPostprocess (cfg : MiqpConfig) (env : PlanEnv) (sel : TargetSelection)
    (apollo_traj : List TrajectoryPoint) : PlanOutcome :=
  if cfg.minimum_percentage_valid_miqp_points * (cfg.nr_steps : ℝ) >
      (apollo_traj.length : ℝ) then
    { status := Status.error "invalid points!", published := none, target := some sel,
      obstacleCollisionLogged := false, environmentCollisionLogged := false }
  else
    let obstacle_collision := cfg.consider_obstacles && env.inCollision apollo_traj
    let environment_collision :=
      cfg.use_environment_polygon && env.environmentCollision apollo_traj
    if cfg.use_smoothing then
      match env.smooth apollo_traj with
      | some smoothed_apollo_trajectory =>
        { status := Status.ok, published := some smoothed_apollo_trajectory,
          target := some sel, obstacleCollisionLogged := obstacle_collision,
          environmentCollisionLogged := environment_collision }
      | none =>
        { status := Status.error "Smoothing failed!", published := none,
          target := some sel, obstacleCollisionLogged := obstacle_collision,
          environmentCollisionLogged := environment_collision }
    else
      { status := Status.ok, published := some apollo_traj, target := some sel,
        obstacleCollisionLogged := obstacle_collision,
        environmentCollisionLogged := environment_collision }

/-- `MiqpPlanner::PlanOnReferenceLine`, one planning cycle.  Reference-line
conversion, map update and agent add/update only feed the external solver and
are elided; every status return, `SetTrajectory` call and collision check of
the source is represented. -/
def planOnReferenceLine (cfg : MiqpConfig) (env : PlanEnv) : PlanOutcome :=
  if env.planner_status = PlannerState.STANDSTILL_TRAJECTORY then
    { status := Status.ok, published := some env.standstill_traj, target := none,
      obstacleCollisionLogged := false, environmentCollisionLogged := false }
  else
    let sel := targetVelocity cfg env.planner_status env.stop_dist env.default_cruise_speed
    let obstaclesOk : Bool :=
      if cfg.consider_obstacles then
        (ProcessStaticObstacles cfg env.geo env.addStatic env.obstacles).result &&
          (ProcessDynamicObstacles env.geo env.addDynamic env.obstacles).result
      else true
    if obstaclesOk = false then
      { status := Status.error "processing of obstacles failed!", published := none,
        target := some sel, obstacleCollisionLogged := false,
        environmentCollisionLogged := false }
    else
      let onRefPath : Prop :=
        env.planner_status = PlannerState.START_TRAJECTORY ∨
          env.planner_status = PlannerState.STOP_TRAJECTORY
      if onRefPath then
        let apollo_traj := RawCTrajectoryToApolloTrajectory cfg env.lastRefTraj false
        planPostprocess cfg env sel apollo_traj
      else if env.plan_success = false then
        { status := Status.error "miqp planner failed!", published := none,
          target := some sel, obstacleCollisionLogged := false,
          environmentCollisionLogged := false }
      else
        let apollo_traj := RawCTrajectoryToApolloTrajectory cfg env.optTraj true
        planPostprocess cfg env sel apollo_traj


/-- State vector of the smoother model, indexed by the `STATES` enum:
`0 = X, 1 = Y, 2 = THETA, 3 = V, 4 = A, 5 = KAPPA`. -/
abbrev Vec6 : Type := Fin 6 → ℝ

/-- Input vector of the smoother model, indexed by the `INPUTS` enum:
`0 = J` (jerk), `1 = XI` (curvature rate). -/
abbrev Vec2 : Type := Fin 2 → ℝ

/-- A 6×6 matrix (`TrajectorySmootherNLOpt::Matrix6d`). -/
abbrev Mat66 : Type := Matrix (Fin 6) (Fin 6) ℝ

/-- A 6×2 matrix (the block type `dimX × dimU` of the sensitivity matrix). -/
abbrev Mat62 : Type := Matrix (Fin 6) (Fin 2) ℝ

/-- `TrajectorySmootherNLOpt::model_f`: one Heun (trapezoidal) integration
step of the kinematic vehicle model, translated literally with the same
intermediate quantities `c1`–`c4`. -/
def model_f (x : Vec6) (u : Vec2) (h : ℝ) : Vec6 :=
  let sinth := Real.sin (x 2)
  let costh := Real.cos (x 2)
  let c1 := x 3 + h * x 4
  let c2 := x 2 + h * x 3 * x 5
  let c3 := x 5 + h * u 1
  let c4 := x 4 + h * u 0
  let x1 := x 0 + 0.5 * h * x 3 * costh + 0.5 * h * c1 * Real.cos c2
  let y1 := x 1 + 0.5 * h * x 3 * sinth + 0.5 * h * c1 * Real.sin c2
  let theta1 := x 2 + 0.5 * h * x 3 * x 5 + 0.5 * h * c1 * c3
  let v1 := x 3 + 0.5 * h * x 4 + 0.5 * h * c4
  let a1 := c4
  let kappa1 := c3
  ![x1, y1, theta1, v1, a1, kappa1]

/-- `TrajectorySmootherNLOpt::model_dfdx`: the 6×6 matrix the code fills as
the Jacobian of `model_f` with respect to the state, entry for entry as in
the source (including its `dx1_dth0`, `dx1_dv0`, `dy1_dv0` terms). -/
def model_dfdx (x : Vec6) (u : Vec2) (h : ℝ) : Mat66 :=
  let sinth := Real.sin (x 2)
  let costh := Real.cos (x 2)
  let c1 := x 3 + h * x 4
  let c2 := x 2 + h * x 3 * x 5
  let dx1_dth0 := -0.5 * h * x 3 * sinth - 0.5 * c1 * Real.sin c2
  let dy1_dth0 := 0.5 * h * x 3 * costh + 0.5 * h * c1 * Real.cos c2
  let dx1_dv0 := 0.5 * h * costh + 0.5 * h * Real.cos c2 - 0.5 * h * c1 * Real.sin c2
  let dy1_dv0 := 0.5 * h * sinth + 0.5 * h * Real.sin c2 + 0.5 * h * c1 * Real.cos c2
  let dth1_dv0 := h * x 5 + 0.5 * h ^ 2 * u 1
  let dx1_da0 := 0.5 * h ^ 2 * Real.cos c2
  let dy1_da0 := 0.5 * h ^ 2 * Real.sin c2
  let dth1_da0 := 0.5 * h ^ 2 * (x 5 + h * u 1)
  let dx1_dkappa0 := -0.5 * h ^ 2 * x 3 * c1 * Real.sin c2
  let dy1_dkappa0 := 0.5 * h ^ 2 * x 3 * c1 * Real.cos c2
  let dth1_dkappa0 := h * x 3 + 0.5 * h ^ 2 * x 4
  !![1, 0, dx1_dth0, dx1_dv0, dx1_da0, dx1_dkappa0;
     0, 1, dy1_dth0, dy1_dv0, dy1_da0, dy1_dkappa0;
     0, 0, 1, dth1_dv0, dth1_da0, dth1_dkappa0;
     0, 0, 0, 1, h, 0;
     0, 0, 0, 0, 1, 0;
     0, 0, 0, 0, 0, 1]

/-- `TrajectorySmootherNLOpt::model_dfdu`: the 6×2 matrix the code fills as
the Jacobian of `model_f` with respect to the input, with the twelve comma
initializer entries laid out row-major exactly as in the source. -/
def model_dfdu (x : Vec6) (_u : Vec2) (h : ℝ) : Mat62 :=
  !![0, 0;
     0, 0.5 * h * h;
     h, 0;
     0, 0;
     0.5 * h ^ 2 * x 3 + 0.5 * h ^ 3 * x 4, 0;
     0, h]

/-- The state reached after `i` Heun steps from `x0` under the input blocks
`u 0, u 1, …` with step size `h` (row block `i` of the stacked vector `X`
computed by `IntegrateModel`). -/
def stateSeq (x0 : Vec6) (u : ℕ → Vec2) (h : ℝ) : ℕ → Vec6
  | 0 => x0
  | i + 1 => model_f (stateSeq x0 u h i) (u i) h

/-- Write the 6×2 block at block row `r`, block column `c` of a block
matrix represented as a function of its block indices. -/
def updS (S : ℕ → ℕ → Mat62) (r c : ℕ) (v : Mat62) : ℕ → ℕ → Mat62 :=
  fun r' c' => if r' = r ∧ c' = c then v else S r' c'

/-- The inner `for (n = 1; n < i; ++n)` loop of `IntegrateModel` after `m`
iterations: iteration `n` writes block `(i, n-1)` with `A` times the block
`(i-1, n-1)` of the matrix as it stands. -/
def innerWrites (A : Mat66) (i : ℕ) (S0 : ℕ → ℕ → Mat62) : ℕ → (ℕ → ℕ → Mat62)
  | 0 => S0
  | m + 1 =>
    updS (innerWrites A i S0 m) i m (A * innerWrites A i S0 m (i - 1) m)

/-- The state inside `IntegrateModel`'s loop: the row blocks of the stacked
state vector `X` and the 6×2 blocks of the sensitivity matrix `dXdU`, each
as a function of block indices.  Block column `N` stands for the block the
source writes at scalar column `dimU * N`, one block past the allocated
columns `0, …, N-1` of `dXdU`. -/
structure IntegState where
  X : ℕ → Vec6
  S : ℕ → ℕ → Mat62

/-- Body of `IntegrateModel`'s main loop for loop index `i`: advance the
state one step, write the fresh `dfdu` block at `(i, i-1)`, the block at
column `N`, and then chain all earlier blocks through `dfdx`, in the
source's write order. -/
def integrateStep (u : ℕ → Vec2) (h : ℝ) (N : ℕ) (st : IntegState) (i : ℕ) :
    IntegState :=
  let x_before := st.X (i - 1)
  let currx := model_f x_before (u (i - 1)) h
  let currA := model_dfdx x_before (u (i - 1)) h
  let currB := model_dfdu x_before (u (i - 1)) h
  let X1 := fun r => if r = i then currx else st.X r
  let S1 := updS st.S i (i - 1) currB
  let S2 := updS S1 i N (currA * S1 (i - 1) N)
  let S3 := innerWrites currA i S2 (i - 1)
  { X := X1, S := S3 }

/-- State of `IntegrateModel` before its loop: row block 0 of `X` holds
`x0`, the other rows of the resized vector are modelled as `0`, and `dXdU`
is filled with `0`. -/
def integInit (x0 : Vec6) : IntegState :=
  { X := fun r => if r = 0 then x0 else fun _ => 0, S := fun _ _ => 0 }

/-- `IntegrateModel` stopped after loop indices `1, …, m`. -/
def integrateUpTo (x0 : Vec6) (u : ℕ → Vec2) (h : ℝ) (N : ℕ) (m : ℕ) :
    IntegState :=
  (List.range' 1 m).foldl (integrateStep u h N) (integInit x0)

/-- `TrajectorySmootherNLOpt::IntegrateModel` with `N` integration steps:
the loop runs for `i = 1, …, N-1`.  `u.col(i - 1)` of the source is read as
input block `i - 1` of the stacked input vector. -/
def IntegrateModel (x0 : Vec6) (u : ℕ → Vec2) (N : ℕ) (h : ℝ) : IntegState :=
  integrateUpTo x0 u h N (N - 1)

/-- Closed form of row block `r` of the sensitivity matrix produced by
`IntegrateModel` (for `r < N`): the guards reproduce, in write order, the
fresh `dfdu` block at column `r-1`, the column-`N` block, the chained
`dfdx` products below column `r-1`, and the remaining zero fill. -/
def sensRow (x0 : Vec6) (u : ℕ → Vec2) (h : ℝ) (N : ℕ) : ℕ → ℕ → Mat62
  | 0, _ => 0
  | r + 1, k =>
    let A := model_dfdx (stateSeq x0 u h r) (u r) h
    let B := model_dfdu (stateSeq x0 u h r) (u r) h
    if k = r then B
    else if k = N then A * sensRow x0 u h N r N
    else if k < r then A * sensRow x0 u h N r k
    else 0

instance : Inhabited TrajectoryPoint := ⟨⟨0, 0, 0, 0, 0, 0, 0, 0, 0, 0⟩⟩

/-- Mutable members of `TrajectorySmootherNLOpt` touched by
`InitializeProblem` and `Optimize`.  The decision vector `u_` is a function
with an explicit element count, `std::vector`-style. -/
structure SmootherState where
  x0 : Vec6
  X_ref : List ℝ
  u : ℕ → ℝ
  u_size : ℕ
  problem_size : ℕ
  lower_bound_size : ℕ
  upper_bound_size : ℕ
  status : ℤ
  j_opt : ℝ
  ready_to_optimize : Bool

/-- `std::vector<double>::resize`: keep the first `min(oldSize, newSize)`
elements, value-initialize (zero) the rest; out-of-size entries read as 0. -/
def resizeVec (v : ℕ → ℝ) (oldSize newSize : ℕ) : ℕ → ℝ :=
  fun i => if i < newSize then (if i < oldSize then v i else 0) else 0

/-- The `u0` start-value loop of `InitializeProblem`, with the source's
index expression `idx = idx_input + idx_subsample` kept verbatim: iteration
`(idx_input, idx_subsample)` writes `u[idx + J] = da(idx_input)` and then
`u[idx + XI] = dkappa(idx_input)`. -/
def setU0 (input_trajectory : List TrajectoryPoint) (subsampling : ℕ)
    (u : ℕ → ℝ) : ℕ → ℝ :=
  (List.range input_trajectory.length).foldl (fun uacc idx_input =>
    (List.range subsampling).foldl (fun uacc2 idx_subsample =>
      let idx := idx_input + idx_subsample
      let pt := input_trajectory.getD idx_input default
      fun i => if i = idx + 1 then pt.dkappa else if i = idx then pt.da else uacc2 i)
      uacc) u

/-- `TrajectorySmootherNLOpt::InitializeProblem`: clear the ready flag; an
input trajectory with fewer than two points returns right away; otherwise
set the problem size, the decision vector start values, `x0`, the reference
array, the bound vector sizes, reset the status and set the ready flag. -/
def InitializeProblem (subsampling : ℕ)
    (input_trajectory : List TrajectoryPoint) (_initial_steering : ℝ)
    (st : SmootherState) : SmootherState :=
  let st0 := { st with ready_to_optimize := false }
  let input_traj_size := input_trajectory.length
  if input_traj_size < 1 then st0
  else if input_traj_size = 1 then st0
  else
    let nr_intermediate_pts := (input_traj_size - 1) * subsampling
    let problem_size := (input_traj_size + nr_intermediate_pts) * 2
    let front := input_trajectory.headI
    { st with
      problem_size := problem_size
      u := setU0 input_trajectory subsampling (resizeVec st.u st.u_size problem_size)
      u_size := problem_size
      x0 := ![front.x, front.y, front.theta, front.v, front.a, front.kappa]
      X_ref := input_trajectory.flatMap
        (fun pt => [pt.x, pt.y, pt.theta, pt.v, pt.a, pt.kappa])
      lower_bound_size := problem_size
      upper_bound_size := problem_size
      status := 0
      ready_to_optimize := true }

/-- Outcome of the external `nlopt::opt::optimize` call: a status code with
the optimized decision vector and objective, a `roundoff_limited` exception,
or any other exception. -/
inductive NloptOutcome where
  | result (code : ℤ) (u_opt : ℕ → ℝ) (j_opt : ℝ)
  | roundoffException
  | fatalException

/-- Result of `TrajectorySmootherNLOpt::Optimize`: the returned code, the
member state afterwards, and the ghost flag telling whether the nonlinear
optimizer was invoked at all. -/
structure OptimizeResult where
  ret : ℤ
  state : SmootherState
  optimizerInvoked : Bool

/-- `TrajectorySmootherNLOpt::Optimize`.  Without a ready problem it returns
`-100` untouched.  Otherwise the nlopt outcome is applied: a fatal exception
sets status `-11` and returns; a `roundoff_limited` exception only warns;
then the status switch rewrites `nlopt::ROUNDOFF_LIMITED` (`-4`) to `10`,
and the final status is returned. -/
def Optimize (st : SmootherState) (nlopt : NloptOutcome) : OptimizeResult :=
  if st.ready_to_optimize = false then
    { ret := -100, state := st, optimizerInvoked := false }
  else
    match nlopt with
    | NloptOutcome.fatalException =>
      { ret := -11, state := { st with status := -11 }, optimizerInvoked := true }
    | NloptOutcome.roundoffException =>
      let s1 : ℤ := if st.status = -4 then 10 else st.status
      { ret := s1, state := { st with status := s1 }, optimizerInvoked := true }
    | NloptOutcome.result code u_opt j_opt =>
      let s1 : ℤ := if code = -4 then 10 else code
      { ret := s1,
        state := { st with status := s1, u := u_opt, j_opt := j_opt },
        optimizerInvoked := true }

/-- A configuration with neutral values, used for the concrete evaluations
below: zero offsets, obstacles considered, no environment polygon, no
smoothing, and a vanishing minimum-length fraction. -/
def cfgW : MiqpConfig :=
  { pts_offset_x := 0, pts_offset_y := 0, distance_start_slowdown := 10,
    distance_stop_before := 3, delta_s_desired := 5, consider_obstacles := true,
    use_environment_polygon := false, use_smoothing := false,
    minimum_percentage_valid_miqp_points := 0, nr_steps := 20,
    extension_length_static := 0, extension_width_static := 0,
    merge_static_obstacles := false, static_obstacle_distance_criteria := 0,
    extension_length_dynamic := 0 }

/-- A trivial geometry oracle for concrete evaluations. -/
def geoW : GeomOracle :=
  { boundingPolyStatic := fun _ => ⟨0⟩, distanceTo := fun _ _ => 0,
    convexHullUnion := fun _ _ => ⟨0⟩ }

/-- A non-virtual perception obstacle without predicted trajectory (a static
obstacle). -/
def obstacleW : Obstacle := { id := 1, isVirtual := false, hasTrajectory := false }

/-- A raw sample moving in `x` direction at `2 m/s` with lateral
acceleration `1 m/s²`; its speed is valid for the low-speed check. -/
def smpW : RawSample := { time := 0, x := 0, y := 0, vx := 2, vy := 0, ax := 0, ay := 1 }

/-- A raw sample with both `|vx| = 0.2` and `|vy| = 0.1` below the minimum
valid speed `0.5`. -/
def smpSlow : RawSample :=
  { time := 1, x := 1, y := 0, vx := 0.2, vy := 0.1, ax := 0, ay := 0 }

/-- A concrete planning-cycle environment: `DRIVING` classification, one
static obstacle whose registration the solver answers with the failure
sentinel `-1`, a successful solve with a one-sample raw buffer, an obstacle
collision detected post hoc, and no smoothing. -/
def envW : PlanEnv :=
  { planner_status := PlannerState.DRIVING_TRAJECTORY, stop_dist := 100,
    default_cruise_speed := 5, standstill_traj := [], obstacles := [obstacleW],
    geo := geoW, addStatic := fun _ => -1, addDynamic := fun _ => -1,
    plan_success := true, lastRefTraj := [smpW], optTraj := [smpW],
    inCollision := fun _ => true, environmentCollision := fun _ => false,
    smooth := fun _ => none }

/-- `envW` with the solver reporting a failed solve. -/
def envWFail : PlanEnv := { envW with plan_success := false }

/-- `cfgW` with smoothing enabled (and the smoothing oracle of `envW`
failing). -/
def cfgWSmooth : MiqpConfig := { cfgW with use_smoothing := true }

/-- `cfgWSmooth` additionally demanding the full horizon of valid points, so
that the one-point decoded trajectory is rejected as too short. -/
def cfgWShort : MiqpConfig :=
  { cfgWSmooth with minimum_percentage_valid_miqp_points := 1 }

/-- An arbitrary concrete smoother state (marked ready, with a nonzero
status, to show `InitializeProblem` resets it). -/
def stW : SmootherState :=
  { x0 := fun _ => 0, X_ref := [], u := fun _ => 0, u_size := 0, problem_size := 0,
    lower_bound_size := 0, upper_bound_size := 0, status := 7, j_opt := 0,
    ready_to_optimize := true }

theorem rawToApolloAux_length_false (cfg : MiqpConfig) :
    ∀ (traj : List RawSample) (s lx ly : ℝ),
      (rawToApolloAux cfg false traj s lx ly).length = traj.length
  | [], _, _, _ => rfl
  | smp :: rest, s, lx, ly => by
    simp only [rawToApolloAux]
    rw [if_neg (by simp)]
    simp [rawToApolloAux_length_false cfg rest]

theorem rawToApolloAux_length_true (cfg : MiqpConfig) :
    ∀ (traj : List RawSample) (k : ℕ) (s lx ly : ℝ),
      k < traj.length →
      (∀ j, j < k → IsVxVyValid (traj.getD j default).vx (traj.getD j default).vy) →
      ¬ IsVxVyValid (traj.getD k default).vx (traj.getD k default).vy →
      (rawToApolloAux cfg true traj s lx ly).length = k
  | [], k, _, _, _, hk, _, _ => absurd hk (by simp)
  | smp :: _rest, 0, s, lx, ly, _, _, hinv => by
    simp only [rawToApolloAux]
    rw [if_pos ⟨trivial, by simpa using hinv⟩]
    rfl
  | smp :: rest, k + 1, s, lx, ly, hk, hval, hinv => by
    simp only [rawToApolloAux]
    rw [if_neg (fun hc => hc.2 (by simpa using hval 0 k.succ_pos))]
    simp only [List.length_cons]
    rw [rawToApolloAux_length_true cfg rest k _ _ _
      (Nat.lt_of_succ_lt_succ (by simpa using hk))
      (fun j hj => by simpa using hval (j + 1) (Nat.succ_lt_succ hj))
      (by simpa using hinv)]

/-- C6: with `low_speed_check` disabled the decoder keeps every raw sample;
with it enabled, if sample `k` is the first whose `|vx|` and `|vy|` are both
below the minimum valid speed `0.5`, decoding stops there and the decoded
trajectory has length exactly `k`. -/
theorem c6_low_speed_truncation (cfg : MiqpConfig) (traj : List RawSample) (k : ℕ) :
    ((RawCTrajectoryToApolloTrajectory cfg traj false).length = traj.length) ∧
    (k < traj.length →
      (∀ j, j < k → IsVxVyValid (traj.getD j default).vx (traj.getD j default).vy) →
      ¬ IsVxVyValid (traj.getD k default).vx (traj.getD k default).vy →
      (RawCTrajectoryToApolloTrajectory cfg traj true).length = k) := by
  refine ⟨rawToApolloAux_length_false cfg traj 0 _ _, fun hk hval hinv => ?_⟩
  exact rawToApolloAux_length_true cfg traj k 0 _ _ hk hval hinv

theorem c6_witness :
    (RawCTrajectoryToApolloTrajectory cfgW [smpW, smpSlow, smpW] false).length =
      [smpW, smpSlow, smpW].length ∧
    (RawCTrajectoryToApolloTrajectory cfgW [smpW, smpSlow, smpW] true).length = 1 := by
  refine ⟨(c6_low_speed_truncation cfgW [smpW, smpSlow, smpW] 1).1, ?_⟩
  refine (c6_low_speed_truncation cfgW [smpW, smpSlow, smpW] 1).2 (by norm_num)
    (fun j hj => ?_) ?_
  · interval_cases j
    norm_num [smpW, IsVxVyValid, minimum_valid_speed_vx_vy]
  · norm_num [smpSlow, IsVxVyValid, minimum_valid_speed_vx_vy, abs_of_nonneg]

/-- C7: the target-speed/target-offset selection follows the spec table:
when approaching a stop (`stop_dist − stop_before < start_slowdown`) and not
in `START`, reference tracking is off, target speed is `0` and the offset is
`max 0 (stop_dist − stop_before)`; in the same situation in `START` the
target speed is the cruise speed; otherwise reference tracking is on with
cruise speed and the configured desired offset.  In particular stop distance
`2` with stop-before distance `3` yields target speed `0` and offset `0`. -/
theorem c7_target_selection_table (cfg : MiqpConfig) (status : PlannerState)
    (stop_dist cruise : ℝ) :
    (stop_dist - cfg.distance_stop_before < cfg.distance_start_slowdown →
      status ≠ PlannerState.START_TRAJECTORY →
      targetVelocity cfg status stop_dist cruise =
        ⟨false, 0, max 0 (stop_dist - cfg.distance_stop_before)⟩) ∧
    (stop_dist - cfg.distance_stop_before < cfg.distance_start_slowdown →
      status = PlannerState.START_TRAJECTORY →
      targetVelocity cfg status stop_dist cruise =
        ⟨false, cruise, max 0 (stop_dist - cfg.distance_stop_before)⟩) ∧
    (¬(stop_dist - cfg.distance_stop_before < cfg.distance_start_slowdown) →
      targetVelocity cfg status stop_dist cruise =
        ⟨true, cruise, cfg.delta_s_desired⟩) ∧
    (stop_dist = 2 → cfg.distance_stop_before = 3 →
      0 ≤ cfg.distance_start_slowdown →
      status ≠ PlannerState.START_TRAJECTORY →
      (targetVelocity cfg status stop_dist cruise).vDes = 0 ∧
      (targetVelocity cfg status stop_dist cruise).deltaSDes = 0) := by
  refine ⟨fun h1 h2 => ?_, fun h1 h2 => ?_, fun h => ?_, fun hsd hsb hsl hne => ?_⟩
  · rw [targetVelocity, if_pos ⟨h1, h2⟩]
  · rw [targetVelocity, if_neg (fun hc => hc.2 h2), if_pos ⟨h1, h2⟩]
  · rw [targetVelocity, if_neg (fun hc => h hc.1), if_neg (fun hc => h hc.1)]
  · have happ : stop_dist - cfg.distance_stop_before < cfg.distance_start_slowdown := by
      rw [hsd, hsb]; linarith
    rw [targetVelocity, if_pos ⟨happ, hne⟩]
    constructor
    · rfl
    · show max 0 (stop_dist - cfg.distance_stop_before) = 0
      rw [hsd, hsb]; norm_num

theorem c7_witness :
    (targetVelocity cfgW PlannerState.DRIVING_TRAJECTORY 2 5).vDes = 0 ∧
    (targetVelocity cfgW PlannerState.DRIVING_TRAJECTORY 2 5).deltaSDes = 0 :=
  (c7_target_selection_table cfgW PlannerState.DRIVING_TRAJECTORY 2 5).2.2.2
    rfl rfl (by norm_num [cfgW]) (by simp)

/-- C9: one Heun step with zero input and zero step size leaves the state
unchanged, and for positive step size a state with zero curvature together
with zero curvature-rate input keeps its heading. -/
theorem c9_model_f_fixed_points :
    (∀ x : Vec6, model_f x ![0, 0] 0 = x) ∧
    (∀ (x : Vec6) (u : Vec2) (h : ℝ), 0 < h → x 5 = 0 → u 1 = 0 →
      model_f x u h 2 = x 2) := by
  constructor
  · intro x
    funext i
    fin_cases i <;> simp [model_f] <;> rfl
  · intro x u h _hh h5 hxi
    simp [model_f, h5, hxi]

theorem c9_witness :
    model_f ![1, 2, 3, 4, 5, 6] ![0, 0] 0 = ![1, 2, 3, 4, 5, 6] ∧
    model_f ![1, 2, 3, 4, 5, 0] ![7, 0] 2 2 = 3 := by
  constructor
  · exact c9_model_f_fixed_points.1 _
  · have h := c9_model_f_fixed_points.2 ![1, 2, 3, 4, 5, 0] ![7, 0] 2
      (by norm_num) (by rfl) (by rfl)
    simpa using h

theorem rawToApolloAux_get (cfg : MiqpConfig) (lsc : Bool) :
    ∀ (traj : List RawSample) (s lx ly : ℝ) (i : ℕ),
      i < (rawToApolloAux cfg lsc traj s lx ly).length →
      ((rawToApolloAux cfg lsc traj s lx ly).getD i default).theta =
          atan2 (traj.getD i default).vy (traj.getD i default).vx ∧
      ((rawToApolloAux cfg lsc traj s lx ly).getD i default).v =
          (traj.getD i default).vx /
            Real.cos (atan2 (traj.getD i default).vy (traj.getD i default).vx) ∧
      ((rawToApolloAux cfg lsc traj s lx ly).getD i default).a =
          Real.cos (atan2 (traj.getD i default).vy (traj.getD i default).vx) *
              (traj.getD i default).ax +
            Real.sin (Real.pi / 4 -
                atan2 (traj.getD i default).vy (traj.getD i default).vx) *
              (traj.getD i default).ay ∧
      ((rawToApolloAux cfg lsc traj s lx ly).getD i default).kappa =
          (if (traj.getD i default).vx * (traj.getD i default).vx +
                (traj.getD i default).vy * (traj.getD i default).vy < 1e-3 then 0
           else ((traj.getD i default).vx * (traj.getD i default).ay -
                  (traj.getD i default).ax * (traj.getD i default).vy) /
                ((traj.getD i default).vx * (traj.getD i default).vx +
                  (traj.getD i default).vy * (traj.getD i default).vy)) ∧
      ((rawToApolloAux cfg lsc traj s lx ly).getD i default).relative_time =
          (traj.getD i default).time
  | [], _, _, _, i, hd => absurd hd (by simp [rawToApolloAux])
  | smp :: rest, s, lx, ly, i, hd => by
    by_cases hcut : (lsc : Prop) ∧ ¬ IsVxVyValid smp.vx smp.vy
    · rw [rawToApolloAux, if_pos hcut] at hd
      exact absurd hd (by simp)
    · rw [rawToApolloAux, if_neg hcut] at hd ⊢
      match i with
      | 0 =>
        simp only [List.getD_cons_zero]
        refine ⟨trivial, trivial, trivial, ?_, trivial⟩
        simp [pow_one]
      | j + 1 =>
        simp only [List.getD_cons_succ]
        exact rawToApolloAux_get cfg lsc rest _ _ _ j (by simpa using hd)

/-- C1 (amended): every point retained by the decoder satisfies
`theta = atan2(vy, vx)`, `v = vx / cos(theta)`,
`a = cos(theta)·ax + sin(π/4 − theta)·ay`, and `kappa = 0` when
`vx² + vy² < 1e-3` and otherwise
`kappa = (vx·ay − ax·vy) / (vx² + vy²)` — the denominator's exponent is `1`,
the value of the integer division `3 / 2` in the source, not the rational
`3/2`. -/
theorem c1_amended_decode_formulas (cfg : MiqpConfig) (traj : List RawSample)
    (lsc : Bool) (i : ℕ)
    (hd : i < (RawCTrajectoryToApolloTrajectory cfg traj lsc).length) :
    ((RawCTrajectoryToApolloTrajectory cfg traj lsc).getD i default).theta =
        atan2 (traj.getD i default).vy (traj.getD i default).vx ∧
    ((RawCTrajectoryToApolloTrajectory cfg traj lsc).getD i default).v =
        (traj.getD i default).vx /
          Real.cos (atan2 (traj.getD i default).vy (traj.getD i default).vx) ∧
    ((RawCTrajectoryToApolloTrajectory cfg traj lsc).getD i default).a =
        Real.cos (atan2 (traj.getD i default).vy (traj.getD i default).vx) *
            (traj.getD i default).ax +
          Real.sin (Real.pi / 4 -
              atan2 (traj.getD i default).vy (traj.getD i default).vx) *
            (traj.getD i default).ay ∧
    ((RawCTrajectoryToApolloTrajectory cfg traj lsc).getD i default).kappa =
        (if (traj.getD i default).vx * (traj.getD i default).vx +
              (traj.getD i default).vy * (traj.getD i default).vy < 1e-3 then 0
         else ((traj.getD i default).vx * (traj.getD i default).ay -
                (traj.getD i default).ax * (traj.getD i default).vy) /
              ((traj.getD i default).vx * (traj.getD i default).vx +
                (traj.getD i default).vy * (traj.getD i default).vy)) ∧
    ((RawCTrajectoryToApolloTrajectory cfg traj lsc).getD i default).relative_time =
        (traj.getD i default).time :=
  rawToApolloAux_get cfg lsc traj 0 _ _ i hd

theorem c1_amended_witness :
    0 < (RawCTrajectoryToApolloTrajectory cfgW [smpW] false).length ∧
    ((RawCTrajectoryToApolloTrajectory cfgW [smpW] false).getD 0 default).kappa =
      (if ([smpW].getD 0 default).vx * ([smpW].getD 0 default).vx +
            ([smpW].getD 0 default).vy * ([smpW].getD 0 default).vy < 1e-3 then 0
       else (([smpW].getD 0 default).vx * ([smpW].getD 0 default).ay -
              ([smpW].getD 0 default).ax * ([smpW].getD 0 default).vy) /
            (([smpW].getD 0 default).vx * ([smpW].getD 0 default).vx +
              ([smpW].getD 0 default).vy * ([smpW].getD 0 default).vy)) := by
  have hlen : 0 < (RawCTrajectoryToApolloTrajectory cfgW [smpW] false).length := by
    simp [RawCTrajectoryToApolloTrajectory, rawToApolloAux_length_false]
  exact ⟨hlen, (c1_amended_decode_formulas cfgW [smpW] false 0 hlen).2.2.2.1⟩

/-- C1 counterexample: for the sample `(vx, vy, ax, ay) = (2, 0, 0, 1)` the
decoder yields curvature `(2·1 − 0·0) / (2² + 0²) = 1/2` — the denominator's
exponent `3 / 2` integer-divides to `1` — while the claimed `3/2` power would
give `2 / 4^(3/2) = 1/4`. -/
theorem c1_counterexample :
    ((RawCTrajectoryToApolloTrajectory cfgW [smpW] false).getD 0 default).kappa = 1 / 2 ∧
    specCurvature smpW.vx smpW.vy smpW.ax smpW.ay = 1 / 4 ∧
    ¬ ((RawCTrajectoryToApolloTrajectory cfgW [smpW] false).getD 0 default).kappa =
        specCurvature smpW.vx smpW.vy smpW.ax smpW.ay := by
  have h1 : ((RawCTrajectoryToApolloTrajectory cfgW [smpW] false).getD 0 default).kappa
      = 1 / 2 := by
    simp only [RawCTrajectoryToApolloTrajectory, rawToApolloAux]
    rw [if_neg (by simp)]
    simp only [List.getD_cons_zero]
    rw [if_neg (by norm_num [smpW])]
    norm_num [smpW]
  have h8 : ((4 : ℝ)) ^ ((3 : ℝ) / 2) = 8 := by
    have h42 : ((4 : ℝ)) = 2 ^ (2 : ℕ) := by norm_num
    rw [h42, ← Real.rpow_natCast (2 : ℝ) 2, ← Real.rpow_mul (by norm_num)]
    rw [show ((2 : ℕ) : ℝ) * (3 / 2) = ((3 : ℕ) : ℝ) by norm_num, Real.rpow_natCast]
    norm_num
  have h2 : specCurvature smpW.vx smpW.vy smpW.ax smpW.ay = 1 / 4 := by
    rw [specCurvature, if_neg (by norm_num [smpW])]
    rw [show (smpW.vx * smpW.vx + smpW.vy * smpW.vy : ℝ) = 4 by norm_num [smpW]]
    rw [h8]
    norm_num [smpW]
  exact ⟨h1, h2, by rw [h1, h2]; norm_num⟩

theorem ProcessStaticObstacles_result (cfg : MiqpConfig) (geo : GeomOracle)
    (addObstacle : ℕ → ℤ) (obstacles : List Obstacle) :
    (ProcessStaticObstacles cfg geo addObstacle obstacles).result = true := rfl

theorem ProcessDynamicObstacles_result (geo : GeomOracle)
    (addObstacle : ℕ → ℤ) (obstacles : List Obstacle) :
    (ProcessDynamicObstacles geo addObstacle obstacles).result = true := rfl

theorem obstaclesOk_true (cfg : MiqpConfig) (env : PlanEnv) :
    (if cfg.consider_obstacles then
        (ProcessStaticObstacles cfg env.geo env.addStatic env.obstacles).result &&
          (ProcessDynamicObstacles env.geo env.addDynamic env.obstacles).result
      else true) = true := by
  cases hc : cfg.consider_obstacles <;> rfl

theorem planOnReferenceLine_eq (cfg : MiqpConfig) (env : PlanEnv) :
    planOnReferenceLine cfg env =
      if env.planner_status = PlannerState.STANDSTILL_TRAJECTORY then
        { status := Status.ok, published := some env.standstill_traj, target := none,
          obstacleCollisionLogged := false, environmentCollisionLogged := false }
      else if env.planner_status = PlannerState.START_TRAJECTORY ∨
          env.planner_status = PlannerState.STOP_TRAJECTORY then
        planPostprocess cfg env
          (targetVelocity cfg env.planner_status env.stop_dist env.default_cruise_speed)
          (RawCTrajectoryToApolloTrajectory cfg env.lastRefTraj false)
      else if env.plan_success = false then
        { status := Status.error "miqp planner failed!", published := none,
          target := some (targetVelocity cfg env.planner_status env.stop_dist
            env.default_cruise_speed),
          obstacleCollisionLogged := false, environmentCollisionLogged := false }
      else
        planPostprocess cfg env
          (targetVelocity cfg env.planner_status env.stop_dist env.default_cruise_speed)
          (RawCTrajectoryToApolloTrajectory cfg env.optTraj true) := by
  by_cases h0 : env.planner_status = PlannerState.STANDSTILL_TRAJECTORY
  · simp [planOnReferenceLine, h0]
  · by_cases h1 : env.planner_status = PlannerState.START_TRAJECTORY ∨
        env.planner_status = PlannerState.STOP_TRAJECTORY
    · simp [planOnReferenceLine, h0, h1, obstaclesOk_true,
        ProcessStaticObstacles_result, ProcessDynamicObstacles_result]
    · by_cases h2 : env.plan_success = false
      · simp [planOnReferenceLine, h0, h1, h2, obstaclesOk_true,
          ProcessStaticObstacles_result, ProcessDynamicObstacles_result]
      · simp [planOnReferenceLine, h0, h1, h2, obstaclesOk_true,
          ProcessStaticObstacles_result, ProcessDynamicObstacles_result]

theorem planPostprocess_oracle_independent (cfg : MiqpConfig) (env : PlanEnv)
    (f g : List TrajectoryPoint → Bool) (sel : TargetSelection)
    (t : List TrajectoryPoint) :
    (planPostprocess cfg { env with inCollision := f, environmentCollision := g }
        sel t).status = (planPostprocess cfg env sel t).status ∧
    (planPostprocess cfg { env with inCollision := f, environmentCollision := g }
        sel t).published = (planPostprocess cfg env sel t).published := by
  dsimp only [planPostprocess]
  split_ifs <;> try exact ⟨rfl, rfl⟩
  cases env.smooth t <;> exact ⟨rfl, rfl⟩

theorem planPostprocess_too_short (cfg : MiqpConfig) (env : PlanEnv)
    (sel : TargetSelection) (t : List TrajectoryPoint)
    (hlen : cfg.minimum_percentage_valid_miqp_points * (cfg.nr_steps : ℝ) >
      (t.length : ℝ)) :
    planPostprocess cfg env sel t =
      { status := Status.error "invalid points!", published := none,
        target := some sel, obstacleCollisionLogged := false,
        environmentCollisionLogged := false } := by
  rw [planPostprocess, if_pos hlen]

theorem planPostprocess_no_smoothing (cfg : MiqpConfig) (env : PlanEnv)
    (sel : TargetSelection) (t : List TrajectoryPoint)
    (hlen : ¬(cfg.minimum_percentage_valid_miqp_points * (cfg.nr_steps : ℝ) >
      (t.length : ℝ)))
    (hsm : cfg.use_smoothing = false) :
    planPostprocess cfg env sel t =
      { status := Status.ok, published := some t, target := some sel,
        obstacleCollisionLogged := cfg.consider_obstacles && env.inCollision t,
        environmentCollisionLogged :=
          cfg.use_environment_polygon && env.environmentCollision t } := by
  rw [planPostprocess, if_neg hlen]
  simp only [hsm]
  rfl

theorem planPostprocess_smoothing_failed (cfg : MiqpConfig) (env : PlanEnv)
    (sel : TargetSelection) (t : List TrajectoryPoint)
    (hlen : ¬(cfg.minimum_percentage_valid_miqp_points * (cfg.nr_steps : ℝ) >
      (t.length : ℝ)))
    (hsm : cfg.use_smoothing = true) (hfail : env.smooth t = none) :
    planPostprocess cfg env sel t =
      { status := Status.error "Smoothing failed!", published := none,
        target := some sel, obstacleCollisionLogged := cfg.consider_obstacles &&
          env.inCollision t,
        environmentCollisionLogged :=
          cfg.use_environment_polygon && env.environmentCollision t } := by
  rw [planPostprocess, if_neg hlen]
  simp [hsm, hfail]

theorem planPostprocess_smoothing_ok (cfg : MiqpConfig) (env : PlanEnv)
    (sel : TargetSelection) (t ts : List TrajectoryPoint)
    (hlen : ¬(cfg.minimum_percentage_valid_miqp_points * (cfg.nr_steps : ℝ) >
      (t.length : ℝ)))
    (hsm : cfg.use_smoothing = true) (hok : env.smooth t = some ts) :
    planPostprocess cfg env sel t =
      { status := Status.ok, published := some ts, target := some sel,
        obstacleCollisionLogged := cfg.consider_obstacles && env.inCollision t,
        environmentCollisionLogged :=
          cfg.use_environment_polygon && env.environmentCollision t } := by
  rw [planPostprocess, if_neg hlen]
  simp [hsm, hok]

theorem planPostprocess_published_iff (cfg : MiqpConfig) (env : PlanEnv)
    (sel : TargetSelection) (t : List TrajectoryPoint) :
    (planPostprocess cfg env sel t).published.isSome = true ↔
      (planPostprocess cfg env sel t).status = Status.ok := by
  dsimp only [planPostprocess]
  split_ifs <;> try simp
  cases env.smooth t <;> simp

theorem planPostprocess_never_obstacle_error (cfg : MiqpConfig) (env : PlanEnv)
    (sel : TargetSelection) (t : List TrajectoryPoint) :
    (planPostprocess cfg env sel t).status ≠
      Status.error "processing of obstacles failed!" := by
  dsimp only [planPostprocess]
  split_ifs <;> try simp
  cases env.smooth t <;> simp

/-- C2: the post-hoc collision checks are verify-but-not-enforce — the
returned status and the published trajectory of a planning cycle do not
depend on the two collision oracles at all, and a cycle that logs a
collision still returns `OK` with a published trajectory when smoothing is
disabled. -/
theorem c2_collision_checks_nonenforcing (cfg : MiqpConfig) (env : PlanEnv)
    (f f' g g' : List TrajectoryPoint → Bool) :
    ((planOnReferenceLine cfg
        { env with inCollision := f, environmentCollision := g }).status =
      (planOnReferenceLine cfg
        { env with inCollision := f', environmentCollision := g' }).status ∧
     (planOnReferenceLine cfg
        { env with inCollision := f, environmentCollision := g }).published =
      (planOnReferenceLine cfg
        { env with inCollision := f', environmentCollision := g' }).published) ∧
    (cfg.use_smoothing = false →
      ((planOnReferenceLine cfg env).obstacleCollisionLogged = true ∨
        (planOnReferenceLine cfg env).environmentCollisionLogged = true) →
      (planOnReferenceLine cfg env).status = Status.ok ∧
        (planOnReferenceLine cfg env).published.isSome = true) := by
  constructor
  · rw [planOnReferenceLine_eq, planOnReferenceLine_eq]
    dsimp only
    by_cases h0 : env.planner_status = PlannerState.STANDSTILL_TRAJECTORY
    · rw [if_pos h0, if_pos h0]
      exact ⟨rfl, rfl⟩
    · rw [if_neg h0, if_neg h0]
      by_cases h1 : env.planner_status = PlannerState.START_TRAJECTORY ∨
          env.planner_status = PlannerState.STOP_TRAJECTORY
      · rw [if_pos h1, if_pos h1]
        exact ⟨(planPostprocess_oracle_independent cfg env f g _ _).1.trans
            (planPostprocess_oracle_independent cfg env f' g' _ _).1.symm,
          (planPostprocess_oracle_independent cfg env f g _ _).2.trans
            (planPostprocess_oracle_independent cfg env f' g' _ _).2.symm⟩
      · rw [if_neg h1, if_neg h1]
        by_cases h2 : env.plan_success = false
        · rw [if_pos h2, if_pos h2]
          exact ⟨rfl, rfl⟩
        · rw [if_neg h2, if_neg h2]
          exact ⟨(planPostprocess_oracle_independent cfg env f g _ _).1.trans
              (planPostprocess_oracle_independent cfg env f' g' _ _).1.symm,
            (planPostprocess_oracle_independent cfg env f g _ _).2.trans
              (planPostprocess_oracle_independent cfg env f' g' _ _).2.symm⟩
  · intro hsm hlog
    rw [planOnReferenceLine_eq] at hlog ⊢
    by_cases h0 : env.planner_status = PlannerState.STANDSTILL_TRAJECTORY
    · rw [if_pos h0] at hlog
      simp at hlog
    · rw [if_neg h0] at hlog ⊢
      by_cases h1 : env.planner_status = PlannerState.START_TRAJECTORY ∨
          env.planner_status = PlannerState.STOP_TRAJECTORY
      · rw [if_pos h1] at hlog ⊢
        by_cases hlen : cfg.minimum_percentage_valid_miqp_points * (cfg.nr_steps : ℝ) >
            ((RawCTrajectoryToApolloTrajectory cfg env.lastRefTraj false).length : ℝ)
        · rw [planPostprocess_too_short _ _ _ _ hlen] at hlog
          simp at hlog
        · rw [planPostprocess_no_smoothing _ _ _ _ hlen hsm] at hlog ⊢
          simp
      · rw [if_neg h1] at hlog ⊢
        by_cases h2 : env.plan_success = false
        · rw [if_pos h2] at hlog
          simp at hlog
        · rw [if_neg h2] at hlog ⊢
          by_cases hlen : cfg.minimum_percentage_valid_miqp_points * (cfg.nr_steps : ℝ) >
              ((RawCTrajectoryToApolloTrajectory cfg env.optTraj true).length : ℝ)
          · rw [planPostprocess_too_short _ _ _ _ hlen] at hlog
            simp at hlog
          · rw [planPostprocess_no_smoothing _ _ _ _ hlen hsm] at hlog ⊢
            simp

theorem c2_witness :
    ((planOnReferenceLine cfgW envW).obstacleCollisionLogged = true ∨
      (planOnReferenceLine cfgW envW).environmentCollisionLogged = true) ∧
    (planOnReferenceLine cfgW envW).status = Status.ok ∧
      (planOnReferenceLine cfgW envW).published.isSome = true := by
  have hd : planOnReferenceLine cfgW envW =
      planPostprocess cfgW envW
        (targetVelocity cfgW envW.planner_status envW.stop_dist envW.default_cruise_speed)
        (RawCTrajectoryToApolloTrajectory cfgW envW.optTraj true) := by
    rw [planOnReferenceLine_eq, if_neg (by simp [envW]), if_neg (by simp [envW]),
      if_neg (by simp [envW])]
  have hlen : ¬(cfgW.minimum_percentage_valid_miqp_points * (cfgW.nr_steps : ℝ) >
      ((RawCTrajectoryToApolloTrajectory cfgW envW.optTraj true).length : ℝ)) := by
    simp [cfgW]
  have hpp := planPostprocess_no_smoothing cfgW envW
    (targetVelocity cfgW envW.planner_status envW.stop_dist envW.default_cruise_speed)
    (RawCTrajectoryToApolloTrajectory cfgW envW.optTraj true) hlen (by simp [cfgW])
  have hlog : (planOnReferenceLine cfgW envW).obstacleCollisionLogged = true ∨
      (planOnReferenceLine cfgW envW).environmentCollisionLogged = true := by
    left
    rw [hd, hpp]
    simp [cfgW, envW]
  exact ⟨hlog, (c2_collision_checks_nonenforcing cfgW envW envW.inCollision
    envW.inCollision envW.environmentCollision envW.environmentCollision).2
    (by simp [cfgW]) hlog⟩

/-- C3 (amended): a failed obstacle registration (index `-1` from
`AddObstacleCMiqpPlanner`) is silently dropped: `ProcessStaticObstacles`
and `ProcessDynamicObstacles` return `true` unconditionally — the returned
index is only compared against `-1` to decide whether to log a success
message — and therefore `PlanOnReferenceLine` never aborts with the
obstacle-processing error. -/
theorem c3_amended_registration_failure_dropped (cfg : MiqpConfig)
    (geo : GeomOracle) (addS addD : ℕ → ℤ) (obstacles : List Obstacle)
    (env : PlanEnv) :
    (ProcessStaticObstacles cfg geo addS obstacles).result = true ∧
    (ProcessDynamicObstacles geo addD obstacles).result = true ∧
    (planOnReferenceLine cfg env).status ≠
      Status.error "processing of obstacles failed!" := by
  refine ⟨rfl, rfl, ?_⟩
  rw [planOnReferenceLine_eq]
  by_cases h0 : env.planner_status = PlannerState.STANDSTILL_TRAJECTORY
  · rw [if_pos h0]
    simp
  · rw [if_neg h0]
    by_cases h1 : env.planner_status = PlannerState.START_TRAJECTORY ∨
        env.planner_status = PlannerState.STOP_TRAJECTORY
    · rw [if_pos h1]
      exact planPostprocess_never_obstacle_error cfg env _ _
    · rw [if_neg h1]
      by_cases h2 : env.plan_success = false
      · rw [if_pos h2]
        simp
      · rw [if_neg h2]
        exact planPostprocess_never_obstacle_error cfg env _ _

/-- C3 counterexample: with the solver answering the registration of the one
static obstacle with the failure sentinel `-1`, the ghost registration trace
is `[-1]`, yet `ProcessStaticObstacles` still returns `true` (the claim says
`false`) and the planning cycle completes with `OK` instead of aborting. -/
theorem c3_counterexample :
    (ProcessStaticObstacles cfgW geoW (fun _ => -1) [obstacleW]).registrations = [-1] ∧
    (ProcessStaticObstacles cfgW geoW (fun _ => -1) [obstacleW]).result = true ∧
    (planOnReferenceLine cfgW envW).status = Status.ok := by
  refine ⟨?_, rfl, ?_⟩
  · simp [ProcessStaticObstacles, staticPolygons, cfgW, geoW, obstacleW]
  · rw [planOnReferenceLine_eq, if_neg (by simp [envW]), if_neg (by simp [envW]),
      if_neg (by simp [envW])]
    rw [planPostprocess_no_smoothing cfgW envW _ _ (by simp [cfgW]) (by simp [cfgW])]

/-- C8: a trajectory is published exactly on `OK` cycles, and each failure
path after classification — solver failure, decoded trajectory below the
minimum length fraction, smoothing failure — returns the corresponding
error status without a `SetTrajectory` call, so the previously published
trajectory is not overwritten. -/
theorem c8_failure_paths_do_not_publish (cfg : MiqpConfig) (env : PlanEnv) :
    ((planOnReferenceLine cfg env).published.isSome = true ↔
      (planOnReferenceLine cfg env).status = Status.ok) ∧
    (env.planner_status = PlannerState.DRIVING_TRAJECTORY →
      env.plan_success = false →
      (planOnReferenceLine cfg env).status = Status.error "miqp planner failed!" ∧
      (planOnReferenceLine cfg env).published = none) ∧
    (env.planner_status = PlannerState.DRIVING_TRAJECTORY →
      env.plan_success = true →
      cfg.minimum_percentage_valid_miqp_points * (cfg.nr_steps : ℝ) >
        ((RawCTrajectoryToApolloTrajectory cfg env.optTraj true).length : ℝ) →
      (planOnReferenceLine cfg env).status = Status.error "invalid points!" ∧
      (planOnReferenceLine cfg env).published = none) ∧
    (env.planner_status = PlannerState.DRIVING_TRAJECTORY →
      env.plan_success = true →
      ¬(cfg.minimum_percentage_valid_miqp_points * (cfg.nr_steps : ℝ) >
        ((RawCTrajectoryToApolloTrajectory cfg env.optTraj true).length : ℝ)) →
      cfg.use_smoothing = true →
      env.smooth (RawCTrajectoryToApolloTrajectory cfg env.optTraj true) = none →
      (planOnReferenceLine cfg env).status = Status.error "Smoothing failed!" ∧
      (planOnReferenceLine cfg env).published = none) := by
  refine ⟨?_, fun h1 h2 => ?_, fun h1 h2 h3 => ?_, fun h1 h2 h3 h4 h5 => ?_⟩
  · rw [planOnReferenceLine_eq]
    by_cases h0 : env.planner_status = PlannerState.STANDSTILL_TRAJECTORY
    · rw [if_pos h0]
      simp
    · rw [if_neg h0]
      by_cases h1 : env.planner_status = PlannerState.START_TRAJECTORY ∨
          env.planner_status = PlannerState.STOP_TRAJECTORY
      · rw [if_pos h1]
        exact planPostprocess_published_iff cfg env _ _
      · rw [if_neg h1]
        by_cases h2 : env.plan_success = false
        · rw [if_pos h2]
          simp
        · rw [if_neg h2]
          exact planPostprocess_published_iff cfg env _ _
  · rw [planOnReferenceLine_eq, if_neg (by simp [h1]), if_neg (by simp [h1]),
      if_pos h2]
    exact ⟨rfl, rfl⟩
  · rw [planOnReferenceLine_eq, if_neg (by simp [h1]), if_neg (by simp [h1]),
      if_neg (by simp [h2]), planPostprocess_too_short _ _ _ _ h3]
    exact ⟨rfl, rfl⟩
  · rw [planOnReferenceLine_eq, if_neg (by simp [h1]), if_neg (by simp [h1]),
      if_neg (by simp [h2]), planPostprocess_smoothing_failed _ _ _ _ h3 h4 h5]
    exact ⟨rfl, rfl⟩

theorem c8_witness :
    ((planOnReferenceLine cfgW envW).published.isSome = true ↔
      (planOnReferenceLine cfgW envW).status = Status.ok) ∧
    ((planOnReferenceLine cfgW envWFail).status =
      Status.error "miqp planner failed!" ∧
     (planOnReferenceLine cfgW envWFail).published = none) ∧
    ((planOnReferenceLine cfgWShort envW).status = Status.error "invalid points!" ∧
     (planOnReferenceLine cfgWShort envW).published = none) ∧
    ((planOnReferenceLine cfgWSmooth envW).status =
      Status.error "Smoothing failed!" ∧
     (planOnReferenceLine cfgWSmooth envW).published = none) := by
  refine ⟨(c8_failure_paths_do_not_publish cfgW envW).1, ?_, ?_, ?_⟩
  · exact (c8_failure_paths_do_not_publish cfgW envWFail).2.1
      (by simp [envWFail, envW]) rfl
  · refine (c8_failure_paths_do_not_publish cfgWShort envW).2.2.1
      (by simp [envW]) rfl ?_
    have hlen : (RawCTrajectoryToApolloTrajectory cfgWShort envW.optTraj
        true).length = 1 := by
      norm_num [RawCTrajectoryToApolloTrajectory, rawToApolloAux, envW, smpW,
        IsVxVyValid, minimum_valid_speed_vx_vy]
    rw [hlen]
    norm_num [cfgWShort, cfgWSmooth, cfgW]
  · refine (c8_failure_paths_do_not_publish cfgWSmooth envW).2.2.2
      (by simp [envW]) rfl ?_ (by simp [cfgWSmooth, cfgW]) rfl
    have hlen : (RawCTrajectoryToApolloTrajectory cfgWSmooth envW.optTraj
        true).length = 1 := by
      norm_num [RawCTrajectoryToApolloTrajectory, rawToApolloAux, envW, smpW,
        IsVxVyValid, minimum_valid_speed_vx_vy]
    rw [hlen]
    norm_num [cfgWShort, cfgWSmooth, cfgW]

/-- C10: `InitializeProblem` on an input trajectory with fewer than two
points leaves the smoother not ready to optimize, and every subsequent
`Optimize` call then returns `-100` without invoking the nonlinear
optimizer and without modifying any member state, in particular the
decision vector. -/
theorem c10_short_input_not_ready (subsampling : ℕ)
    (input_trajectory : List TrajectoryPoint) (steering : ℝ)
    (st : SmootherState) (nlopt : NloptOutcome)
    (hshort : input_trajectory.length < 2) :
    (InitializeProblem subsampling input_trajectory steering st).ready_to_optimize
      = false ∧
    Optimize (InitializeProblem subsampling input_trajectory steering st) nlopt =
      { ret := -100,
        state := InitializeProblem subsampling input_trajectory steering st,
        optimizerInvoked := false } := by
  have h01 : input_trajectory.length = 0 ∨ input_trajectory.length = 1 := by omega
  have hready : (InitializeProblem subsampling input_trajectory steering
      st).ready_to_optimize = false := by
    rcases h01 with h | h <;> simp [InitializeProblem, h]
  exact ⟨hready, by rw [Optimize.eq_def, if_pos hready]⟩

theorem c10_witness :
    [(default : TrajectoryPoint)].length < 2 ∧
    (InitializeProblem 3 [default] 0 stW).ready_to_optimize = false ∧
    Optimize (InitializeProblem 3 [default] 0 stW) NloptOutcome.roundoffException =
      { ret := -100, state := InitializeProblem 3 [default] 0 stW,
        optimizerInvoked := false } := by
  refine ⟨by norm_num, ?_, ?_⟩
  · exact (c10_short_input_not_ready 3 [default] 0 stW
      NloptOutcome.roundoffException (by norm_num)).1
  · exact (c10_short_input_not_ready 3 [default] 0 stW
      NloptOutcome.roundoffException (by norm_num)).2

/-- C4 (divergence): the matrices filled by `model_dfdx` and `model_dfdu`
are not the exact Jacobians of `model_f`.  At state
`(x, y, θ, v, a, κ) = (0, 0, π/2, 0, 1, 0)` with zero input and `h = 2`, the
derivative of the `x` component of `model_f` with respect to `θ` is `-2`,
while `model_dfdx` stores `-1` (the source entry
`-0.5 * h * v * sinth - 0.5 * c1 * sin(c2)` drops a factor `h` in its second
term); and at the zero state with `h = 1`, the derivative of the `a`
component with respect to the jerk input is `h = 1`, while `model_dfdu`
stores `0` there (its twelve comma-initializer entries sit one row too
high, e.g. `h` lands in the `θ` row instead of the `a` row). -/
theorem c4_jacobian_divergence :
    HasDerivAt (fun th : ℝ => model_f ![0, 0, th, 0, 1, 0] ![0, 0] 2 0) (-2)
      (Real.pi / 2) ∧
    model_dfdx ![0, 0, Real.pi / 2, 0, 1, 0] ![0, 0] 2 0 2 = -1 ∧
    HasDerivAt (fun j : ℝ => model_f ![0, 0, 0, 0, 0, 0] ![j, 0] 1 4) 1 0 ∧
    model_dfdu ![0, 0, 0, 0, 0, 0] ![0, 0] 1 4 0 = 0 ∧
    ((-2 : ℝ) ≠ -1 ∧ (1 : ℝ) ≠ 0) := by
  refine ⟨?_, ?_, ?_, ?_, by norm_num, by norm_num⟩
  · have hfun : (fun th : ℝ => model_f ![0, 0, th, 0, 1, 0] ![0, 0] 2 0) =
        fun th : ℝ => 2 * Real.cos th := by
      funext th
      norm_num [model_f]
    rw [hfun]
    have h := (Real.hasDerivAt_cos (Real.pi / 2)).const_mul (2 : ℝ)
    simpa [Real.sin_pi_div_two] using h
  · norm_num [model_dfdx, Real.sin_pi_div_two]
  · have hfun : (fun j : ℝ => model_f ![0, 0, 0, 0, 0, 0] ![j, 0] 1 4) =
        fun j : ℝ => j := by
      funext j
      norm_num [model_f]
    rw [hfun]
    exact hasDerivAt_id 0
  · norm_num [model_dfdu, Matrix.vecHead, Matrix.vecTail]

theorem updS_apply (S : ℕ → ℕ → Mat62) (r c : ℕ) (v : Mat62) (r' c' : ℕ) :
    updS S r c v r' c' = if r' = r ∧ c' = c then v else S r' c' := rfl

theorem innerWrites_ne_row (A : Mat66) (i : ℕ) (S0 : ℕ → ℕ → Mat62) :
    ∀ (m r k : ℕ), r ≠ i → innerWrites A i S0 m r k = S0 r k
  | 0, _, _, _ => rfl
  | m + 1, r, k, hr => by
    simp only [innerWrites, updS_apply]
    rw [if_neg (fun hc => hr hc.1)]
    exact innerWrites_ne_row A i S0 m r k hr

theorem innerWrites_row (A : Mat66) (i : ℕ) (S0 : ℕ → ℕ → Mat62) (hi : 1 ≤ i) :
    ∀ (m k : ℕ), innerWrites A i S0 m i k =
      if k < m then A * S0 (i - 1) k else S0 i k
  | 0, k => by simp [innerWrites]
  | m + 1, k => by
    simp only [innerWrites, updS_apply]
    by_cases hk : k = m
    · rw [if_pos (by simp [hk]), if_pos (by omega : k < m + 1),
        innerWrites_ne_row A i S0 m (i - 1) m (by omega), hk]
    · rw [if_neg (by simp [hk]), innerWrites_row A i S0 hi m k]
      by_cases hlt : k < m
      · rw [if_pos hlt, if_pos (by omega : k < m + 1)]
      · rw [if_neg hlt, if_neg (by omega : ¬ k < m + 1)]

theorem integrateStep_X_ne (u : ℕ → Vec2) (h : ℝ) (N : ℕ) (st : IntegState)
    (i r : ℕ) (hr : r ≠ i) : (integrateStep u h N st i).X r = st.X r := by
  simp [integrateStep, hr]

theorem integrateStep_X_eq (u : ℕ → Vec2) (h : ℝ) (N : ℕ) (st : IntegState)
    (i : ℕ) : (integrateStep u h N st i).X i =
      model_f (st.X (i - 1)) (u (i - 1)) h := by
  simp [integrateStep]

theorem integrateStep_S_ne (u : ℕ → Vec2) (h : ℝ) (N : ℕ) (st : IntegState)
    (i r k : ℕ) (hr : r ≠ i) : (integrateStep u h N st i).S r k = st.S r k := by
  simp only [integrateStep]
  rw [innerWrites_ne_row _ _ _ _ _ _ hr]
  simp [updS_apply, hr]

theorem integrateStep_S_row (u : ℕ → Vec2) (h : ℝ) (N : ℕ) (st : IntegState)
    (i k : ℕ) (hi : 1 ≤ i) (hiN : i < N) :
    (integrateStep u h N st i).S i k =
      if k = i - 1 then model_dfdu (st.X (i - 1)) (u (i - 1)) h
      else if k = N then model_dfdx (st.X (i - 1)) (u (i - 1)) h * st.S (i - 1) N
      else if k < i - 1 then model_dfdx (st.X (i - 1)) (u (i - 1)) h * st.S (i - 1) k
      else st.S i k := by
  have hiN' : i - 1 ≠ N := by omega
  simp only [integrateStep]
  rw [innerWrites_row _ _ _ hi (i - 1) k]
  by_cases h1 : k = i - 1
  · subst h1
    rw [if_neg (lt_irrefl _)]
    simp [updS_apply, hiN']
  · by_cases h2 : k = N
    · subst h2
      rw [if_neg (by omega), if_neg h1]
      simp [updS_apply, show i - 1 ≠ i by omega]
    · by_cases h3 : k < i - 1
      · rw [if_pos h3, if_neg h1, if_neg h2, if_pos h3]
        simp [updS_apply, show i - 1 ≠ i by omega]
      · rw [if_neg h3, if_neg h1, if_neg h2, if_neg h3]
        simp [updS_apply, h1, h2]

theorem integrateUpTo_spec (x0 : Vec6) (u : ℕ → Vec2) (h : ℝ) (N : ℕ) :
    ∀ m, m ≤ N - 1 →
      (∀ r, r ≤ m → (integrateUpTo x0 u h N m).X r = stateSeq x0 u h r) ∧
      (∀ r, r ≤ m → ∀ k,
        (integrateUpTo x0 u h N m).S r k = sensRow x0 u h N r k) ∧
      (∀ r, m < r → ∀ k, (integrateUpTo x0 u h N m).S r k = 0)
  | 0, _ => by
    refine ⟨?_, ?_, ?_⟩
    · intro r hr
      obtain rfl : r = 0 := Nat.le_zero.mp hr
      rfl
    · intro r hr k
      obtain rfl : r = 0 := Nat.le_zero.mp hr
      rfl
    · intro r _ k
      rfl
  | m + 1, hm => by
    have ih := integrateUpTo_spec x0 u h N m (by omega)
    have hiN : m + 1 < N := by omega
    have hstep : integrateUpTo x0 u h N (m + 1) =
        integrateStep u h N (integrateUpTo x0 u h N m) (m + 1) := by
      rw [integrateUpTo, integrateUpTo, List.range'_concat, List.foldl_append]
      norm_num [Nat.add_comm]
    rw [hstep]
    refine ⟨?_, ?_, ?_⟩
    · intro r hr
      by_cases hrm : r = m + 1
      · subst hrm
        rw [integrateStep_X_eq, Nat.add_sub_cancel, ih.1 m le_rfl]
        rfl
      · rw [integrateStep_X_ne _ _ _ _ _ _ hrm]
        exact ih.1 r (by omega)
    · intro r hr k
      by_cases hrm : r = m + 1
      · subst hrm
        rw [integrateStep_S_row _ _ _ _ _ _ (by omega) hiN, Nat.add_sub_cancel,
          ih.1 m le_rfl]
        by_cases h1 : k = m
        · rw [if_pos h1]
          simp only [sensRow]
          rw [if_pos h1]
        · rw [if_neg h1]
          by_cases h2 : k = N
          · rw [if_pos h2, ih.2.1 m le_rfl N]
            simp only [sensRow]
            rw [if_neg h1, if_pos h2]
          · rw [if_neg h2]
            by_cases h3 : k < m
            · rw [if_pos h3, ih.2.1 m le_rfl k]
              simp only [sensRow]
              rw [if_neg h1, if_neg h2, if_pos h3]
            · rw [if_neg h3, ih.2.2 (m + 1) (by omega) k]
              simp only [sensRow]
              rw [if_neg h1, if_neg h2, if_neg h3]
      · rw [integrateStep_S_ne _ _ _ _ _ _ _ hrm]
        exact ih.2.1 r (by omega) k
    · intro r hr k
      rw [integrateStep_S_ne _ _ _ _ _ _ _ (by omega)]
      exact ih.2.2 r (by omega) k

/-- C5: the sensitivity matrix built by `IntegrateModel` satisfies the
chain-rule recurrences: every block of row block `0` is zero; for
`1 ≤ i < N` the block at `(i, i-1)` is `model_dfdu` evaluated at the state
of step `i-1`; and for every earlier input block `k < i-1` the block at
`(i, k)` equals `model_dfdx` at the state of step `i-1` times the block at
`(i-1, k)`.  The row blocks of the stacked state vector `X` are the Heun
iterates of `x0`. -/
theorem c5_sensitivity_propagation (x0 : Vec6) (u : ℕ → Vec2) (N : ℕ) (h : ℝ) :
    (∀ k, (IntegrateModel x0 u N h).S 0 k = 0) ∧
    (∀ r, r < N → (IntegrateModel x0 u N h).X r = stateSeq x0 u h r) ∧
    (∀ i, 1 ≤ i → i < N →
      (IntegrateModel x0 u N h).S i (i - 1) =
        model_dfdu (stateSeq x0 u h (i - 1)) (u (i - 1)) h) ∧
    (∀ i k, 1 ≤ i → i < N → k < i - 1 →
      (IntegrateModel x0 u N h).S i k =
        model_dfdx (stateSeq x0 u h (i - 1)) (u (i - 1)) h *
          (IntegrateModel x0 u N h).S (i - 1) k) := by
  have hspec := integrateUpTo_spec x0 u h N (N - 1) le_rfl
  refine ⟨fun k => ?_, fun r hr => ?_, fun i h1 h2 => ?_, fun i k h1 h2 h3 => ?_⟩
  · exact hspec.2.1 0 (Nat.zero_le _) k
  · exact hspec.1 r (by omega)
  · rw [IntegrateModel, hspec.2.1 i (by omega) (i - 1)]
    obtain ⟨j, rfl⟩ : ∃ j, i = j + 1 := ⟨i - 1, by omega⟩
    simp only [sensRow, Nat.add_sub_cancel]
    simp
  · rw [IntegrateModel, hspec.2.1 i (by omega) k, hspec.2.1 (i - 1) (by omega) k]
    obtain ⟨j, rfl⟩ : ∃ j, i = j + 1 := ⟨i - 1, by omega⟩
    rw [Nat.add_sub_cancel] at h3 ⊢
    simp only [sensRow]
    rw [if_neg (by omega), if_neg (by omega), if_pos h3]

theorem c5_witness :
    (IntegrateModel (fun _ => 0) (fun _ _ => 0) 3 1).S 1 0 =
      model_dfdu (stateSeq (fun _ => 0) (fun _ _ => 0) 1 0) (fun _ => 0) 1 ∧
    (IntegrateModel (fun _ => 0) (fun _ _ => 0) 3 1).S 0 5 = 0 ∧
    (IntegrateModel (fun _ => 0) (fun _ _ => 0) 3 1).S 2 0 =
      model_dfdx (stateSeq (fun _ => 0) (fun _ _ => 0) 1 1) (fun _ => 0) 1 *
        (IntegrateModel (fun _ => 0) (fun _ _ => 0) 3 1).S 1 0 :=
  ⟨(c5_sensitivity_propagation (fun _ => 0) (fun _ _ => 0) 3 1).2.2.1 1
      (by norm_num) (by norm_num),
   (c5_sensitivity_propagation (fun _ => 0) (fun _ _ => 0) 3 1).1 5,
   (c5_sensitivity_propagation (fun _ => 0) (fun _ _ => 0) 3 1).2.2.2 2 0
      (by norm_num) (by norm_num) (by norm_num)⟩
